import Mathlib

/-!
Verification of the session-management core of the repository: a shallow
embedding of `BaseSessionManager`, its two adapters (`TextSessionManager`,
`CallSessionManager`), `SummarizationService` and the parts of
`InteractionManager` the claims concern.

Embedding conventions:
* JavaScript is single-threaded; every handler runs to completion between
  suspension points, so handlers are embedded as pure state transformers
  `state → state × emitted events` (plus a resolution value where a promise
  is resolved).
* Nullable fields become `Option`; JS truthiness tests on token strings
  (`if (token)`, `!!token`) are embedded by `tokenPresent`, under which the
  empty string counts as absent.
* The remote conduit is an oracle: a `Bool` argument says whether a
  `connect`/`send` call succeeds, and `env : Nat → Bool` gives the outcome
  of the k-th reconnection attempt.
* `Date.now()` is passed in as a `Nat` argument wherever the source reads it.
-/

namespace Anima

/-- `SessionState` from BaseSessionManager.ts. -/
structure SessionState where
  sessionId : String
  resumptionToken : Option String
  currentModel : String
  isActive : Bool
  connectionAttempts : Nat
deriving DecidableEq, Repr

/-- One entry of the process-wide resumption-token store:
`{token, timestamp}` (BaseSessionManager.resumptionTokenStore). -/
structure StoredToken where
  token : String
  timestamp : Nat
deriving DecidableEq, Repr

/-- `SessionConfig` (only the fields the embedded code reads:
`model` and the optional `enableResumption`). -/
structure SessionConfig where
  model : String
  enableResumption : Option Bool
deriving DecidableEq, Repr

/-- The generic event vocabulary emitted by session managers
(`SessionEvent` in BaseSessionManager.ts). Error objects are carried as
their message strings; `sessionResumed` carries the token field as read
from the live session state (which can be null at that point). -/
inductive SessionEvent where
  | sessionStarted (sessionId : String)
  | sessionEnded (sessionId : String)
  | sessionResumed (sessionId : String) (token : Option String)
  | goAway (timeLeft : Int)
  | rateLimitError (msg : String)
  | networkError (willRetry : Bool)
  | reconnecting (attempt : Nat)
  | messageReceived (text : String)
deriving DecidableEq, Repr

/-- A turn of the text adapter's local history: `{role, parts:[{text}..]}`. -/
structure TurnRec where
  role : String
  parts : List String
deriving DecidableEq, Repr

/-- A turn of the audio adapter's call transcript: `{speaker, text}`. -/
structure SpeakerText where
  speaker : String
  text : String
deriving DecidableEq, Repr

/-- Adapter-local state of TextSessionManager: the conduit handle
(`session !== null`), the message history, and the dynamically stashed
promise plumbing `_currentResolver` / `_responseText`
(`resolver` is true while a resolver is attached; `responseText = none`
models the field being deleted/undefined). -/
structure TextLocal where
  hasSession : Bool
  messages : List TurnRec
  resolver : Bool
  responseText : Option String
deriving DecidableEq, Repr

/-- Adapter-local state of CallSessionManager: the conduit handle and the
call transcript. -/
structure CallLocal where
  hasSession : Bool
  callTranscript : List SpeakerText
deriving DecidableEq, Repr

/-- The state owned by one session manager instance: the base-class fields
(`sessionState`, `reconnectTimer`, this instance's slot of the process-wide
`resumptionTokenStore`) plus the adapter-local state `α`.
`reconnectTimer` holds the delay of the single pending scheduled
reconnection, if any. -/
structure MgrState (α : Type) where
  sessionState : Option SessionState
  reconnectTimer : Option Int
  store : Option StoredToken
  localState : α
deriving DecidableEq, Repr

/-- The operations an adapter plugs into the base machine:
`performSessionCleanup`'s effect on the local state, the effect of a
successful `client.live.connect` on the local state, and the session-id
tag used in `<mode>-session-<now>`. -/
structure AdapterOps (α : Type) where
  cleanup : α → α
  openConduit : α → α
  modeTag : String

/-- TextSessionManager's operations: cleanup closes and nulls the session
and clears `messages` (performSessionCleanup); connect sets the handle. -/
def textOps : AdapterOps TextLocal :=
  { cleanup := fun l => { l with hasSession := false, messages := [] }
    openConduit := fun l => { l with hasSession := true }
    modeTag := "text-session-" }

/-- CallSessionManager's operations: cleanup closes and nulls the session
and clears `callTranscript`; connect sets the handle. -/
def callOps : AdapterOps CallLocal :=
  { cleanup := fun l => { l with hasSession := false, callTranscript := [] }
    openConduit := fun l => { l with hasSession := true }
    modeTag := "sts-session-" }

def MAX_RECONNECT_ATTEMPTS : Nat := 3

def RECONNECT_DELAY_MS : Nat := 2000

/-- 2 hours, in milliseconds. -/
def RESUMPTION_TOKEN_EXPIRY_MS : Nat := 2 * 60 * 60 * 1000

/-- JS truthiness of a nullable token string: null/undefined and the empty
string are falsy. -/
def tokenPresent (t : Option String) : Bool :=
  match t with
  | none => false
  | some str => if str = "" then false else true

/-- `getValidResumptionToken`: reads this instance's store slot, purges it
when the entry is older than the expiry window, and returns the (possibly
purged) slot together with the token it found.  JS computes
`Date.now() - stored.timestamp > EXPIRY` on signed numbers; with `Nat`
subtraction a clock running backwards also yields "not expired", matching
the JS comparison. -/
def getValidResumptionToken (now : Nat) (store : Option StoredToken) :
    Option StoredToken × Option String :=
  match store with
  | none => (none, none)
  | some st =>
    if now - st.timestamp > RESUMPTION_TOKEN_EXPIRY_MS then (none, none)
    else (some st, some st.token)

/-- `createNewSession` (same shape in both adapters): awaits
`client.live.connect` (outcome `connectOk`), and on success stores the
conduit handle and installs a fresh `sessionState` with a locally generated
id, no resumption token, the configured model, `isActive := true` and
zero connection attempts.  On failure the thrown error leaves the state
as it was. -/
def createNewSession (ops : AdapterOps α) (now : Nat) (connectOk : Bool)
    (config : SessionConfig) (s : MgrState α) : MgrState α × Bool :=
  if connectOk then
    ({ s with
        localState := ops.openConduit s.localState
        sessionState := some
          { sessionId := ops.modeTag ++ toString now
            resumptionToken := none
            currentModel := config.model
            isActive := true
            connectionAttempts := 0 } }, true)
  else (s, false)

/-- `resumeSession` (both adapters): logs the token and delegates to
`createNewSession(config)` — no resumption handshake is performed. -/
def resumeSession (ops : AdapterOps α) (now : Nat) (connectOk : Bool)
    (config : SessionConfig) (token : String) (s : MgrState α) :
    MgrState α × Bool :=
  createNewSession ops now connectOk config s

/-- Which branch `startSession` takes after reading the token store. -/
inductive StartChoice where
  | resumeWith (token : String)
  | createNew
deriving DecidableEq, Repr

/-- The branch condition of `startSession`:
`if (resumptionToken && config.enableResumption)`. -/
def startChoice (tok : Option String) (config : SessionConfig) : StartChoice :=
  if tokenPresent tok && config.enableResumption.getD false then
    StartChoice.resumeWith (tok.getD "")
  else StartChoice.createNew

/-- `startSession`: consults `getValidResumptionToken` (persisting any
purge), dispatches to `resumeSession` or `createNewSession`, and on
success emits `session-started` with the fresh session's id.  A failed
connect rethrows: no event, state as left by the failed attempt. -/
def startSession (ops : AdapterOps α) (now : Nat) (connectOk : Bool)
    (config : SessionConfig) (s : MgrState α) :
    MgrState α × Bool × List SessionEvent :=
  let pr := getValidResumptionToken now s.store
  let s1 : MgrState α := { s with store := pr.1 }
  let att : MgrState α × Bool :=
    match startChoice pr.2 config with
    | StartChoice.resumeWith t => resumeSession ops now connectOk config t s1
    | StartChoice.createNew => createNewSession ops now connectOk config s1
  if att.2 then
    (att.1, true,
      [SessionEvent.sessionStarted
        (match att.1.sessionState with
         | some ss => ss.sessionId
         | none => "")])
  else (att.1, false, [])

/-- `endSession`: warns and does nothing without session state; otherwise
cancels any pending reconnection timer, runs the adapter cleanup, clears
the session state, copies a (truthy) resumption token into the store with
the current timestamp, and emits `session-ended`. -/
def endSession (ops : AdapterOps α) (now : Nat) (s : MgrState α) :
    MgrState α × List SessionEvent :=
  match s.sessionState with
  | none => (s, [])
  | some ss =>
    ({ s with
        reconnectTimer := none
        localState := ops.cleanup s.localState
        sessionState := none
        store :=
          if tokenPresent ss.resumptionToken then
            some { token := ss.resumptionToken.getD "", timestamp := now }
          else s.store },
     [SessionEvent.sessionEnded ss.sessionId])

/-- `setResumptionToken`: warns and does nothing without an active session;
otherwise updates the live token and persists it to the store. -/
def setResumptionToken (now : Nat) (token : String) (s : MgrState α) :
    MgrState α :=
  match s.sessionState with
  | none => s
  | some ss =>
    { s with
        sessionState := some { ss with resumptionToken := some token }
        store := some { token := token, timestamp := now } }

/-- `scheduleReconnection`: clears any previously pending timer (the field
holds at most one) and schedules the attempt at `max(0, timeLeft - 500)`. -/
def scheduleReconnection (timeLeft : Int) (s : MgrState α) : MgrState α :=
  { s with reconnectTimer := some (max 0 (timeLeft - 500)) }

/-- `handleGoAwayMessage`: emits `go-away` and, when the live session holds
a (truthy) resumption token, schedules a reconnection. -/
def handleGoAwayMessage (timeLeft : Int) (s : MgrState α) :
    MgrState α × List SessionEvent :=
  match s.sessionState with
  | some ss =>
    if tokenPresent ss.resumptionToken then
      (scheduleReconnection timeLeft s, [SessionEvent.goAway timeLeft])
    else (s, [SessionEvent.goAway timeLeft])
  | none => (s, [SessionEvent.goAway timeLeft])

/-- `handleRateLimitError`: emits the event and deliberately leaves the
session alone. -/
def handleRateLimitError (msg : String) (s : MgrState α) :
    MgrState α × List SessionEvent :=
  (s, [SessionEvent.rateLimitError msg])

/-- `reconnectSession` (same shape in both adapters): runs
`performSessionCleanup` (closing the conduit and discarding the mode-local
history), then, if session state is present, `createNewSession` with the
last known model.  The `Bool` reports whether the awaited connect
succeeded; on failure the cleanup has already happened. -/
def reconnectSession (ops : AdapterOps α) (now : Nat) (connectOk : Bool)
    (s : MgrState α) : MgrState α × Bool :=
  let s1 : MgrState α := { s with localState := ops.cleanup s.localState }
  match s1.sessionState with
  | none => (s1, true)
  | some ss =>
    createNewSession ops now connectOk
      { model := ss.currentModel, enableResumption := none } s1

/-- `handleNetworkError` together with the inlined body of
`attemptReconnection` (they are mutually recursive in the source: a failed
reconnection recurses into `handleNetworkError`).  `fuel` is an upper bound
on the recursion depth, which the attempt ceiling bounds by
`MAX_RECONNECT_ATTEMPTS`; `env k` is the outcome of the k-th reconnection's
`reconnectSession` call.  Each step: bail out without session state;
increment `connectionAttempts`; compute
`willRetry = attempts < MAX && !!resumptionToken`; emit
`network-error{willRetry}`; if retrying, re-check the token
(attemptReconnection's guard), emit `reconnecting`, wait the fixed delay,
and run `reconnectSession` — success resets the attempt counter and emits
`session-resumed` from the (fresh) session state, failure recurses;
if not retrying, tear down via `endSession`. -/
def hneBody (ops : AdapterOps α) (now : Nat) (env : Nat → Bool)
    (recur : Nat → MgrState α → MgrState α × List SessionEvent)
    (k : Nat) (s : MgrState α) : MgrState α × List SessionEvent :=
  match s.sessionState with
  | none => (s, [])
  | some ss =>
    let ss1 : SessionState :=
      { ss with connectionAttempts := ss.connectionAttempts + 1 }
    let s1 : MgrState α := { s with sessionState := some ss1 }
    let willRetry : Bool :=
      decide (ss1.connectionAttempts < MAX_RECONNECT_ATTEMPTS) &&
        tokenPresent ss1.resumptionToken
    if willRetry then
      if tokenPresent ss1.resumptionToken then
        let evs1 : List SessionEvent :=
          [SessionEvent.networkError willRetry,
           SessionEvent.reconnecting ss1.connectionAttempts]
        let rec1 := reconnectSession ops now (env k) s1
        if rec1.2 then
          match rec1.1.sessionState with
          | some ss3 =>
            ({ rec1.1 with
                sessionState := some { ss3 with connectionAttempts := 0 } },
             evs1 ++ [SessionEvent.sessionResumed ss3.sessionId
                        ss3.resumptionToken])
          | none => (rec1.1, evs1)
        else
          let r := recur (k + 1) rec1.1
          (r.1, evs1 ++ r.2)
      else (s1, [SessionEvent.networkError willRetry])
    else
      let r := endSession ops now s1
      (r.1, SessionEvent.networkError willRetry :: r.2)

/-- The bounded recursion through `hneBody`. -/
def hneAux (ops : AdapterOps α) (now : Nat) (env : Nat → Bool) :
    Nat → Nat → MgrState α → MgrState α × List SessionEvent
  | 0, _, s => (s, [])
  | fuel + 1, k, s => hneBody ops now env (hneAux ops now env fuel) k s

/-- `handleNetworkError` entry point: the recursion depth is bounded by the
attempt ceiling, so `MAX_RECONNECT_ATTEMPTS + 1` fuel always suffices. -/
def handleNetworkError (ops : AdapterOps α) (now : Nat) (env : Nat → Bool)
    (k : Nat) (s : MgrState α) : MgrState α × List SessionEvent :=
  hneAux ops now env (MAX_RECONNECT_ATTEMPTS + 1) k s

/-! ### TextSessionManager -/

/-- The fields of an inbound `LiveServerMessage` that `getCallbacks().onmessage`
inspects. `resumptionHandle` is `newHandle` when a resumption update with
`resumable` set arrived (the source tests its truthiness again);
`modelTurnParts` is the list of the model turn's part texts (a part with no
text is carried as `""`, which the source skips as falsy, like a missing
one); `errorMsg` is `serverContent.error.message`. -/
structure ServerMsg where
  resumptionHandle : Option String
  goAwayTimeLeft : Option Int
  errorMsg : Option String
  modelTurnParts : Option (List String)
  generationComplete : Bool
deriving DecidableEq, Repr

/-- `errorMessage.message?.includes("rate limit")`, as character-list
containment. -/
def includesRateLimit (e : String) : Bool :=
  decide (List.IsInfix ("rate limit").toList e.toList)

/-- The streamed fragment a message contributes:
`modelTurn.parts[parts.length - 1].text`, skipped when falsy. -/
def fragOf (modelTurnParts : Option (List String)) : Option String :=
  match modelTurnParts with
  | none => none
  | some parts =>
    match parts.getLast? with
    | none => none
    | some t => if t = "" then none else some t

/-- TextSessionManager's `onmessage` callback: resumption-token update,
GoAway handling, rate-limit detection, fragment accumulation into
`_responseText`, completion handling (append the model turn, resolve the
pending promise, drop the stashed plumbing), and the trailing
`message-received` emission (whose text is the FIRST part's text).
The returned `Option String` is the value the pending `sendMessage`
promise is resolved with, if this message resolved it.  The external
`updateTranscript` UI callback is not modelled. -/
def textOnMessage (now : Nat) (msg : ServerMsg) (s : MgrState TextLocal) :
    MgrState TextLocal × List SessionEvent × Option String :=
  let s1 :=
    if tokenPresent msg.resumptionHandle then
      setResumptionToken now (msg.resumptionHandle.getD "") s
    else s
  let g :=
    match msg.goAwayTimeLeft with
    | some t => handleGoAwayMessage t s1
    | none => (s1, [])
  let evs3 : List SessionEvent :=
    match msg.errorMsg with
    | some e =>
      if includesRateLimit e then [SessionEvent.rateLimitError e]
      else []
    | none => []
  let s4 : MgrState TextLocal :=
    match fragOf msg.modelTurnParts with
    | some t =>
      { g.1 with localState :=
          { g.1.localState with
              responseText := g.1.localState.responseText.map (· ++ t) } }
    | none => g.1
  let r5 : MgrState TextLocal × Option String :=
    if msg.generationComplete && s4.localState.resolver then
      let rt := s4.localState.responseText.getD ""
      ({ s4 with localState :=
          { s4.localState with
              messages := s4.localState.messages ++
                [{ role := "model", parts := [rt] }]
              resolver := false
              responseText := none } }, some rt)
    else (s4, none)
  let ev : SessionEvent :=
    SessionEvent.messageReceived ((msg.modelTurnParts.getD []).headD "")
  (r5.1, g.2 ++ evs3 ++ [ev], r5.2)

/-- Runs a sequence of inbound messages through `textOnMessage`,
accumulating events; the resolution value is the first one produced
(a promise resolves at most once). -/
def runMsgs (now : Nat) :
    List ServerMsg → MgrState TextLocal →
    MgrState TextLocal × List SessionEvent × Option String
  | [], s => (s, [], none)
  | m :: ms, s =>
    let r1 := textOnMessage now m s
    let r2 := runMsgs now ms r1.1
    (r2.1, r1.2.1 ++ r2.2.1,
      match r1.2.2 with
      | some v => some v
      | none => r2.2.2)

/-- Modelled from the spec: `EnergyBarService.getCurrentModel` — the
EnergyBarService source is not under the examined tree (only its callers
and requirement documents are).  Spec §4.1: `currentModel(mode)` is the
pure lookup `modelFor(mode, level[mode])`, which yields nothing (and the
caller fails with "no model available") when no model is configured for
that level.  `modelMap` is the mode's level→model table and `level` the
mode's current ledger level. -/
def getCurrentModel (modelMap : Nat → Option String) (level : Nat) :
    Option String :=
  modelMap level

/-- The tail of `sendMessage` once a session exists: push the user turn,
reject inside the promise executor if the conduit handle is missing,
otherwise send the turn (`sendOk` is the outcome of `sendClientContent`)
and stash the resolver with `_responseText = ""`.  The final `Bool` is
true when a pending promise with an attached resolver is left behind. -/
def sendMessageBody (text : String) (sendOk : Bool)
    (s : MgrState TextLocal) (evs : List SessionEvent) :
    MgrState TextLocal × List SessionEvent × Bool :=
  let s1 : MgrState TextLocal :=
    { s with localState :=
        { s.localState with
            messages := s.localState.messages ++
              [{ role := "user", parts := [text] }] } }
  if s1.localState.hasSession then
    if sendOk then
      ({ s1 with localState :=
          { s1.localState with resolver := true, responseText := some "" } },
       evs, true)
    else (s1, evs, false)
  else (s1, evs, false)

/-- `sendMessage` up to its first suspension on the response stream:
lazily starts a session on the first call (`modelOpt` is
`energyBarService.getCurrentModel("tts")`; `none` makes `getModel` throw),
then runs `sendMessageBody`.  A failed lazy start rethrows before the user
turn is pushed. -/
def sendMessage (now : Nat) (connectOk sendOk : Bool)
    (modelOpt : Option String) (text : String) (s : MgrState TextLocal) :
    MgrState TextLocal × List SessionEvent × Bool :=
  if s.localState.hasSession then
    sendMessageBody text sendOk s []
  else
    match modelOpt with
    | none => (s, [], false)
    | some m =>
      let r := startSession textOps now connectOk
        { model := m, enableResumption := none } s
      if r.2.1 then sendMessageBody text sendOk r.1 r.2.2
      else (r.1, r.2.2, false)

/-- `getMessages` (the source returns a copy of the same list). -/
def getMessages (s : MgrState TextLocal) : List TurnRec :=
  s.localState.messages

/-! ### CallSessionManager -/

/-- `sendAudio` up to the chunk send: lazily starts a session on the first
call with `enableResumption: false` and the model looked up from the sts
ledger (`getModel` throws when the lookup is empty), then throws if no
conduit exists, and sends the chunk (`sendOk` is `sendRealtimeInput`'s
outcome).  The final `Bool` is true when the chunk was sent. -/
def sendAudio (modelMap : Nat → Option String) (stsLevel : Nat) (now : Nat)
    (connectOk sendOk : Bool) (s : MgrState CallLocal) :
    MgrState CallLocal × List SessionEvent × Bool :=
  if s.localState.hasSession then (s, [], sendOk)
  else
    match getCurrentModel modelMap stsLevel with
    | none => (s, [], false)
    | some model =>
      let r := startSession callOps now connectOk
        { model := model, enableResumption := some false } s
      if r.2.1 then
        if r.1.localState.hasSession then (r.1, r.2.2, sendOk)
        else (r.1, r.2.2, false)
      else (r.1, r.2.2, false)

/-- `getCallTranscript` (the source returns a copy of the same list). -/
def getCallTranscript (s : MgrState CallLocal) : List SpeakerText :=
  s.localState.callTranscript

/-! ### SummarizationService -/

/-- `Message` from shared/types.ts (as consumed by summarization). -/
structure Message where
  id : String
  sender : String
  text : String
  timestamp : Nat
deriving DecidableEq, Repr

/-- `createPrompt`: the fixed instruction text followed by the rendered
conversation. -/
def createPrompt (transcript : List Message) : String :=
  let conversation :=
    String.intercalate "\n"
      (transcript.map (fun m => m.sender ++ ": " ++ m.text))
  "Please provide a concise summary of the following conversation. \nThe summary should capture the main topics discussed and any conclusions reached.\nFormat the summary as a single paragraph.\n\nConversation:\n"
    ++ conversation

/-- `SummarizationService.summarize`: empty transcript short-circuits to
`""`; otherwise the text-generation call (`gen`, keyed by the prompt, an
oracle for `models.generateContent`) is awaited inside a try/catch whose
catch returns the placeholder string — the returned promise therefore
always resolves (`Except.ok`) and never rejects. -/
def summarize (gen : String → Except String String)
    (transcript : List Message) : Except String String :=
  if transcript.length = 0 then Except.ok ""
  else
    match gen (createPrompt transcript) with
    | Except.ok text => Except.ok text
    | Except.error _ => Except.ok "Summary unavailable"

/-! ### InteractionManager (the parts the claims concern) -/

/-- The InteractionManager state relevant to the audio-session claims:
its (nullable) reference to the call session manager. -/
structure IMState where
  callMgr : Option (MgrState CallLocal)
deriving DecidableEq, Repr

/-- `endCallSession`: if a call session manager is referenced, end its
session and null the reference. -/
def endCallSession (now : Nat) (im : IMState) : IMState × List SessionEvent :=
  match im.callMgr with
  | none => (im, [])
  | some cm =>
    let r := endSession callOps now cm
    ({ callMgr := none }, r.2)

/-- `InteractionManager.getCallTranscript`: delegates to the referenced
manager, or returns the empty list when the reference is null. -/
def imGetCallTranscript (im : IMState) : List SpeakerText :=
  match im.callMgr with
  | some cm => getCallTranscript cm
  | none => []

/-- `endSessionAndSummarize`: ends the call session first, then reads the
transcript through the (now nulled) reference, converts it to `Message`
records, and — only when non-empty — awaits the summarization collaborator,
rethrowing its rejection; otherwise resolves with `""`. -/
def endSessionAndSummarize (gen : String → Except String String) (now : Nat)
    (im : IMState) : IMState × List SessionEvent × Except String String :=
  let r := endCallSession now im
  let callTranscript := imGetCallTranscript r.1
  let transcript : List Message :=
    callTranscript.mapIdx (fun i t =>
      { id := "turn-" ++ toString i, sender := t.speaker, text := t.text,
        timestamp := now })
  if transcript.length > 0 then
    match summarize gen transcript with
    | Except.ok summary => (r.1, r.2, Except.ok summary)
    | Except.error e => (r.1, r.2, Except.error e)
  else (r.1, r.2, Except.ok "")

/-! ### Theorems -/

/-- C10: for both adapters, every config, every token and every state,
`resumeSession(config, token)` behaves identically to
`createNewSession(config)`: the token argument is never used and no
resumption handshake is performed. -/
theorem resumeSession_eq_createNewSession (now : Nat) (ok : Bool)
    (config : SessionConfig) (t1 t2 : String) (st : MgrState TextLocal)
    (sc : MgrState CallLocal) :
    resumeSession textOps now ok config t1 st =
      createNewSession textOps now ok config st ∧
    resumeSession callOps now ok config t1 sc =
      createNewSession callOps now ok config sc ∧
    resumeSession textOps now ok config t1 st =
      resumeSession textOps now ok config t2 st ∧
    resumeSession callOps now ok config t1 sc =
      resumeSession callOps now ok config t2 sc :=
  ⟨rfl, rfl, rfl, rfl⟩

/-- C9: every automatic reconnection (`reconnectSession`) unconditionally
empties the mode-local history — the text adapter's message list and the
audio adapter's call transcript — via `performSessionCleanup`, whatever the
prior state and whether or not the re-open succeeds; afterwards
`getMessages()` / `getCallTranscript()` return empty sequences. -/
theorem reconnectSession_clears_history (now : Nat) (ok : Bool)
    (st : MgrState TextLocal) (sc : MgrState CallLocal) :
    getMessages (reconnectSession textOps now ok st).1 = [] ∧
    getCallTranscript (reconnectSession callOps now ok sc).1 = [] := by
  constructor
  · unfold reconnectSession getMessages
    rcases h : ({ st with
        localState := textOps.cleanup st.localState } : MgrState TextLocal).sessionState
      with - | ss
    · simp [h, textOps]
    · simp only [h, createNewSession]
      cases ok <;> simp [textOps]
  · unfold reconnectSession getCallTranscript
    rcases h : ({ sc with
        localState := callOps.cleanup sc.localState } : MgrState CallLocal).sessionState
      with - | ss
    · simp [h, callOps]
    · simp only [h, createNewSession]
      cases ok <;> simp [callOps]

/-- C2: every `endSessionAndSummarize()` call resolves to the empty string
and the summarization collaborator is never invoked: `endCallSession()`
runs first and nulls the `callSessionManager` reference, so the transcript
subsequently read via `getCallTranscript()` is empty, the non-empty guard
is false, and the result is independent of the collaborator `gen`. -/
theorem endSessionAndSummarize_empty (gen : String → Except String String)
    (now : Nat) (im : IMState) :
    imGetCallTranscript (endCallSession now im).1 = [] ∧
    (endSessionAndSummarize gen now im).1.callMgr = none ∧
    (endSessionAndSummarize gen now im).2.2 = Except.ok "" := by
  rcases h : im.callMgr with - | cm <;>
    simp [endSessionAndSummarize, endCallSession, imGetCallTranscript, h]

/-- C3 counterexample: on a non-empty transcript whose underlying
text-generation call fails, `summarize` resolves successfully with the
placeholder `"Summary unavailable"` — the failure is swallowed, not
propagated as a rejection, refuting the claim at this concrete input. -/
theorem summarize_swallows_failure_cex :
    summarize (fun _ => Except.error "network failure")
        [{ id := "turn-0", sender := "user", text := "hello there",
           timestamp := 0 }] =
      Except.ok "Summary unavailable" ∧
    (summarize (fun _ => Except.error "network failure")
        [{ id := "turn-0", sender := "user", text := "hello there",
           timestamp := 0 }]).isOk = true :=
  ⟨rfl, rfl⟩

/-- C3 (amended): if summarization is invoked on a non-empty transcript and
the underlying text-generation call fails, `summarize` catches the error
and resolves with the placeholder `"Summary unavailable"`; no rejection
reaches the caller of `endSessionAndSummarize()`, whose result is always a
resolved value. -/
theorem summarize_failure_yields_placeholder
    (gen : String → Except String String) (transcript : List Message)
    (e : String) (now : Nat) (im : IMState)
    (hne : transcript.length ≠ 0)
    (hgen : gen (createPrompt transcript) = Except.error e) :
    summarize gen transcript = Except.ok "Summary unavailable" ∧
    (endSessionAndSummarize gen now im).2.2 = Except.ok "" := by
  constructor
  · simp [summarize, hne, hgen]
  · rcases h : im.callMgr with - | cm <;>
      simp [endSessionAndSummarize, endCallSession, imGetCallTranscript, h]

/-- C3 witness for `summarize_failure_yields_placeholder`. -/
theorem summarize_failure_yields_placeholder_witness :
    summarize (fun _ => Except.error "boom")
        [{ id := "t", sender := "model", text := "hi", timestamp := 1 }] =
      Except.ok "Summary unavailable" ∧
    (endSessionAndSummarize (fun _ => Except.error "boom") 5
        { callMgr := none }).2.2 = Except.ok "" :=
  summarize_failure_yields_placeholder (fun _ => Except.error "boom")
    [{ id := "t", sender := "model", text := "hi", timestamp := 1 }]
    "boom" 5 { callMgr := none } (by decide) rfl

/-- The concrete sts ledger table for the C4 input: one distinct model
identifier per level 0..3 (audio mode's maximum level is 3). -/
def stsModelMap : Nat → Option String := fun k =>
  if k ≤ 3 then some ("sts-model-" ++ toString k) else none

/-- The C4 failing input: a fresh audio adapter whose sts ledger level is 0
(the prior session ended after rate-limit downgrades) and whose store still
holds the prior session's resumption token. -/
def audioCexState : MgrState CallLocal :=
  { sessionState := none
    reconnectTimer := none
    store := some { token := "low-tier-era-token", timestamp := 0 }
    localState := { hasSession := false, callTranscript := [] } }

/-- C4, evaluated at the failing input: the first `sendAudio` call at sts
ledger level 0 opens the new session with the current-level model
`"sts-model-0"`, not the audio mode's maximum-level model `"sts-model-3"`
— while the stored resumption token is indeed ignored (the new session
carries no token). -/
theorem sendAudio_opens_at_current_level_not_max :
    getCurrentModel stsModelMap 0 = some "sts-model-0" ∧
    getCurrentModel stsModelMap 3 = some "sts-model-3" ∧
    ((sendAudio stsModelMap 0 1000 true true audioCexState).1.sessionState.map
        (fun ss => ss.currentModel)) = some "sts-model-0" ∧
    ((sendAudio stsModelMap 0 1000 true true audioCexState).1.sessionState.map
        (fun ss => ss.currentModel)) ≠ some "sts-model-3" ∧
    ((sendAudio stsModelMap 0 1000 true true audioCexState).1.sessionState.map
        (fun ss => ss.resumptionToken)) = some none := by
  refine ⟨rfl, rfl, rfl, ?_, rfl⟩
  decide

/-- C5: a GoAway carrying `timeLeft`, received while the session holds a
resumption token, emits `go-away` and leaves exactly one pending
reconnection timer, set to `max(0, timeLeft - 500)` — overwriting whatever
timer was pending before, so a second GoAway cancels and replaces the
first schedule; without a token the GoAway emits the event and schedules
nothing (the timer field is untouched). -/
theorem goAway_schedules_single_timer {α : Type} (t t2 : Int)
    (s : MgrState α) (ss : SessionState) (hss : s.sessionState = some ss) :
    (tokenPresent ss.resumptionToken = true →
      handleGoAwayMessage t s =
        ({ s with reconnectTimer := some (max 0 (t - 500)) },
         [SessionEvent.goAway t]) ∧
      (handleGoAwayMessage t2 (handleGoAwayMessage t s).1).1.reconnectTimer =
        some (max 0 (t2 - 500))) ∧
    (tokenPresent ss.resumptionToken = false →
      handleGoAwayMessage t s = (s, [SessionEvent.goAway t])) := by
  constructor
  · intro htok
    have h1 : handleGoAwayMessage t s =
        ({ s with reconnectTimer := some (max 0 (t - 500)) },
         [SessionEvent.goAway t]) := by
      simp [handleGoAwayMessage, scheduleReconnection, hss, htok]
    refine ⟨h1, ?_⟩
    rw [h1]
    simp [handleGoAwayMessage, scheduleReconnection, hss, htok]
  · intro htok
    simp [handleGoAwayMessage, hss, htok]

/-- A concrete state with a live session, a resumption token and a pending
timer, for the C5 witness. -/
def goAwayWitState : MgrState CallLocal :=
  { sessionState := some
      { sessionId := "sts-session-9", resumptionToken := some "tok9",
        currentModel := "m", isActive := true, connectionAttempts := 0 }
    reconnectTimer := some 111
    store := none
    localState := { hasSession := true, callTranscript := [] } }

/-- C5 witness for `goAway_schedules_single_timer`. -/
theorem goAway_schedules_single_timer_witness :
    handleGoAwayMessage 1000 goAwayWitState =
      ({ goAwayWitState with reconnectTimer := some (max 0 (1000 - 500)) },
       [SessionEvent.goAway 1000]) ∧
    (handleGoAwayMessage 3000
        (handleGoAwayMessage 1000 goAwayWitState).1).1.reconnectTimer =
      some (max 0 (3000 - 500)) :=
  (goAway_schedules_single_timer 1000 3000 goAwayWitState _ rfl).1 (by decide)

/-- C6: `endSession()` with no session state is a no-op (nothing changes,
no event); with session state it cancels any pending reconnection timer,
runs the adapter cleanup, clears the session state, copies a present
(truthy) resumption token into the process-wide store — and leaves the
store alone otherwise — and emits `session-ended`; a second call in a row
then changes nothing and emits nothing. -/
theorem endSession_noop_and_idempotent {α : Type} (ops : AdapterOps α)
    (now now2 : Nat) (s : MgrState α) :
    (s.sessionState = none → endSession ops now s = (s, [])) ∧
    (∀ ss : SessionState, s.sessionState = some ss →
      (endSession ops now s).1.reconnectTimer = none ∧
      (endSession ops now s).1.localState = ops.cleanup s.localState ∧
      (endSession ops now s).1.sessionState = none ∧
      (tokenPresent ss.resumptionToken = true →
        (endSession ops now s).1.store =
          some { token := ss.resumptionToken.getD "", timestamp := now }) ∧
      (tokenPresent ss.resumptionToken = false →
        (endSession ops now s).1.store = s.store) ∧
      (endSession ops now s).2 = [SessionEvent.sessionEnded ss.sessionId]) ∧
    endSession ops now2 (endSession ops now s).1 =
      ((endSession ops now s).1, []) := by
  refine ⟨?_, ?_, ?_⟩
  · intro h
    simp [endSession, h]
  · intro ss h
    refine ⟨by simp [endSession, h], by simp [endSession, h],
      by simp [endSession, h], ?_, ?_, by simp [endSession, h]⟩
    · intro htok
      simp [endSession, h, htok]
    · intro htok
      simp [endSession, h, htok]
  · rcases h : s.sessionState with - | ss <;> simp [endSession, h]

/-- A concrete state with a live session holding a token, for the C6
witness. -/
def endSessionWitState : MgrState CallLocal :=
  { sessionState := some
      { sessionId := "sts-session-1", resumptionToken := some "tokE",
        currentModel := "m", isActive := true, connectionAttempts := 2 }
    reconnectTimer := some 50
    store := none
    localState := { hasSession := true,
                    callTranscript := [{ speaker := "user", text := "hi" }] } }

/-- C6 witness for `endSession_noop_and_idempotent`. -/
theorem endSession_noop_and_idempotent_witness :
    (endSession callOps 7 endSessionWitState).1.sessionState = none ∧
    (endSession callOps 7 endSessionWitState).1.store =
      some { token := (some "tokE").getD "", timestamp := 7 } ∧
    (endSession callOps 7 endSessionWitState).2 =
      [SessionEvent.sessionEnded "sts-session-1"] ∧
    endSession callOps 8 (endSession callOps 7 endSessionWitState).1 =
      ((endSession callOps 7 endSessionWitState).1, []) := by
  have h := endSession_noop_and_idempotent callOps 7 8 endSessionWitState
  have h2 := h.2.1 _ rfl
  exact ⟨h2.2.2.1, h2.2.2.2.1 (by decide), h2.2.2.2.2.2, h.2.2⟩

/-- C7: `startSession(config)` reads this adapter's store slot through
`getValidResumptionToken`: a stored token not older than 2 hours is
returned, and when the caller requested resumption the resume branch is
taken with exactly that token; a stored token older than 2 hours is purged
from the store and treated as absent; without a valid token, or when the
config does not request resumption, the create branch is taken — and on
the purged path the slot stays empty in the state `startSession` leaves
behind. -/
theorem startSession_resumption_policy {α : Type} (ops : AdapterOps α)
    (now : Nat) (ok : Bool) (st : StoredToken) (config : SessionConfig)
    (s : MgrState α) :
    (¬ now - st.timestamp > RESUMPTION_TOKEN_EXPIRY_MS → st.token ≠ "" →
      config.enableResumption = some true →
      getValidResumptionToken now (some st) = (some st, some st.token) ∧
      startChoice (some st.token) config = StartChoice.resumeWith st.token) ∧
    (now - st.timestamp > RESUMPTION_TOKEN_EXPIRY_MS →
      getValidResumptionToken now (some st) = (none, none) ∧
      (s.store = some st → (startSession ops now ok config s).1.store = none)) ∧
    (config.enableResumption.getD false = false →
      ∀ tok : Option String, startChoice tok config = StartChoice.createNew) ∧
    (∀ cfg : SessionConfig, startChoice none cfg = StartChoice.createNew) := by
  refine ⟨?_, ?_, ?_, ?_⟩
  · intro hfresh htok hres
    constructor
    · simp [getValidResumptionToken, hfresh]
    · simp [startChoice, tokenPresent, hres, htok]
  · intro hexp
    refine ⟨by simp [getValidResumptionToken, hexp], ?_⟩
    intro hstore
    unfold startSession
    simp only [hstore, getValidResumptionToken, hexp, if_pos]
    rcases hch : startChoice none config with t | -
    · simp [startChoice, tokenPresent] at hch
    · simp only [hch]
      unfold createNewSession
      cases ok <;> simp
  · intro hres tok
    simp [startChoice, hres]
  · intro cfg
    simp [startChoice, tokenPresent]

/-- A state whose store slot holds an old token, for the C7 witness. -/
def startWitState : MgrState CallLocal :=
  { sessionState := none
    reconnectTimer := none
    store := some { token := "tokW", timestamp := 100 }
    localState := { hasSession := false, callTranscript := [] } }

/-- C7 witness for `startSession_resumption_policy`. -/
theorem startSession_resumption_policy_witness :
    (getValidResumptionToken 200 (some { token := "tokW", timestamp := 100 }) =
        (some { token := "tokW", timestamp := 100 }, some "tokW") ∧
      startChoice (some "tokW") { model := "m", enableResumption := some true } =
        StartChoice.resumeWith "tokW") ∧
    (getValidResumptionToken 99999999
        (some { token := "tokW", timestamp := 100 }) = (none, none) ∧
      (startSession callOps 99999999 true
          { model := "m", enableResumption := some true }
          startWitState).1.store = none) := by
  have h := startSession_resumption_policy callOps 99999999 true
    { token := "tokW", timestamp := 100 }
    { model := "m", enableResumption := some true } startWitState
  refine ⟨?_, (h.2.1 (by decide)).1, (h.2.1 (by decide)).2 rfl⟩
  exact (startSession_resumption_policy callOps 200 true
    { token := "tokW", timestamp := 100 }
    { model := "m", enableResumption := some true } startWitState).1
    (by decide) (by decide) rfl

/-- An environment in which every reconnection attempt fails. -/
def envAllFail : Nat → Bool := fun _ => false

/-- A live audio session holding a resumption token, with no prior
connection attempts: the C1 scenario's starting state. -/
def netErrCexState : MgrState CallLocal :=
  { sessionState := some
      { sessionId := "sts-session-100", resumptionToken := some "tok",
        currentModel := "m0", isActive := true, connectionAttempts := 0 }
    reconnectTimer := none
    store := none
    localState := { hasSession := true, callTranscript := [] } }

/-- C1 counterexample: starting from a fresh session with a resumption
token, consecutive network errors (every reconnection failing) tear the
session down at the THIRD error — the trace ends with
`network-error{willRetry = false}` followed by `session-ended` and the
session state is already cleared — so a fourth error hits a dead session
and does nothing at all: it emits no `network-error{willRetry = false}`
and performs no transition, refuting the claim that the 4th error produces
`willRetry = false` and ends the session. -/
theorem networkError_fourth_error_noop_cex :
    (handleNetworkError callOps 500 envAllFail 0 netErrCexState).2 =
      [SessionEvent.networkError true, SessionEvent.reconnecting 1,
       SessionEvent.networkError true, SessionEvent.reconnecting 2,
       SessionEvent.networkError false,
       SessionEvent.sessionEnded "sts-session-100"] ∧
    (handleNetworkError callOps 500 envAllFail 0 netErrCexState).1.sessionState
      = none ∧
    handleNetworkError callOps 600 envAllFail 3
        (handleNetworkError callOps 500 envAllFail 0 netErrCexState).1 =
      ((handleNetworkError callOps 500 envAllFail 0 netErrCexState).1, []) := by
  refine ⟨?_, ?_, ?_⟩ <;> decide

/-- C1 (amended): with active session state, each network error increments
`connectionAttempts` and emits `network-error` with
`willRetry = (attempts < 3) && resumptionToken present` as its first event
(last conjunct); failed reconnections recurse into the same handler
bounded by that ceiling, so starting from zero attempts with a token
present and failing reconnections, at most 2 reconnections are attempted
and the THIRD consecutive error — not the fourth — computes
`willRetry = false` and tears the session down via `endSession()`
(a fourth error would find no session state and be ignored). -/
theorem networkError_third_error_ends_session {α : Type}
    (ops : AdapterOps α) (now : Nat) (env : Nat → Bool) (k : Nat)
    (s : MgrState α) (ss : SessionState) (tok : String)
    (hss : s.sessionState = some ss) (h0 : ss.connectionAttempts = 0)
    (htok : ss.resumptionToken = some tok) (hne : tok ≠ "")
    (he1 : env k = false) (he2 : env (k + 1) = false) :
    (handleNetworkError ops now env k s).2 =
      [SessionEvent.networkError true, SessionEvent.reconnecting 1,
       SessionEvent.networkError true, SessionEvent.reconnecting 2,
       SessionEvent.networkError false,
       SessionEvent.sessionEnded ss.sessionId] ∧
    (handleNetworkError ops now env k s).1.sessionState = none ∧
    (∀ (s' : MgrState α) (ss' : SessionState), s'.sessionState = some ss' →
      (handleNetworkError ops now env k s').2.head? =
        some (SessionEvent.networkError
          (decide (ss'.connectionAttempts + 1 < MAX_RECONNECT_ATTEMPTS) &&
            tokenPresent ss'.resumptionToken))) := by
  have hM : MAX_RECONNECT_ATTEMPTS + 1 = 1 + 1 + 1 + 1 := rfl
  refine ⟨?_, ?_, ?_⟩
  · unfold handleNetworkError
    rw [hM]
    simp [hneAux, hneBody, hss, h0, htok, hne, he1, he2, reconnectSession,
      createNewSession, endSession, tokenPresent, MAX_RECONNECT_ATTEMPTS]
  · unfold handleNetworkError
    rw [hM]
    simp [hneAux, hneBody, hss, h0, htok, hne, he1, he2, reconnectSession,
      createNewSession, endSession, tokenPresent, MAX_RECONNECT_ATTEMPTS]
  · intro s' ss' hss'
    unfold handleNetworkError
    have e : hneAux ops now env (MAX_RECONNECT_ATTEMPTS + 1) k s' =
        hneBody ops now env (hneAux ops now env MAX_RECONNECT_ATTEMPTS) k s' :=
      rfl
    rw [e]
    generalize hneAux ops now env MAX_RECONNECT_ATTEMPTS = recur
    rcases hw : (decide (ss'.connectionAttempts + 1 < MAX_RECONNECT_ATTEMPTS)
        && tokenPresent ss'.resumptionToken) with - | -
    · simp [hneBody, hss', hw, endSession]
    · have htp : tokenPresent ss'.resumptionToken = true :=
        ((Bool.and_eq_true _ _).mp hw).2
      have hlt : ss'.connectionAttempts + 1 < MAX_RECONNECT_ATTEMPTS :=
        of_decide_eq_true ((Bool.and_eq_true _ _).mp hw).1
      simp [hneBody, hss', hw, htp, hlt, he1, reconnectSession,
        createNewSession]

/-- The concatenation of the streamed model-text fragments a message
sequence carries (the property-side notion C8 compares against). -/
def joinFrags : List ServerMsg → String
  | [] => ""
  | m :: ms => (fragOf m.modelTurnParts).getD "" ++ joinFrags ms

theorem setResumptionToken_localState (now : Nat) (tok : String)
    (s : MgrState α) :
    (setResumptionToken now tok s).localState = s.localState := by
  rcases h : s.sessionState with - | ss <;> simp [setResumptionToken, h]

theorem handleGoAwayMessage_localState (t : Int) (s : MgrState α) :
    (handleGoAwayMessage t s).1.localState = s.localState := by
  rcases h : s.sessionState with - | ss
  · simp [handleGoAwayMessage, h]
  · rcases htp : tokenPresent ss.resumptionToken with - | - <;>
      simp [handleGoAwayMessage, scheduleReconnection, h, htp]

/-- One non-completing inbound message: no resolution, resolver and
history untouched, the fragment (if any) appended to `_responseText`. -/
theorem textOnMessage_step (now : Nat) (msg : ServerMsg)
    (s : MgrState TextLocal) (acc : String)
    (hc : msg.generationComplete = false)
    (hrt : s.localState.responseText = some acc) :
    (textOnMessage now msg s).2.2 = none ∧
    (textOnMessage now msg s).1.localState.resolver = s.localState.resolver ∧
    (textOnMessage now msg s).1.localState.messages = s.localState.messages ∧
    (textOnMessage now msg s).1.localState.responseText =
      some (acc ++ (fragOf msg.modelTurnParts).getD "") ∧
    (textOnMessage now msg s).1.localState.hasSession =
      s.localState.hasSession := by
  rcases hf : fragOf msg.modelTurnParts with - | t <;>
  · rcases hga : msg.goAwayTimeLeft with - | tl <;>
    · rcases hrh : tokenPresent msg.resumptionHandle with - | - <;>
        simp [textOnMessage, hc, hf, hga, hrh, setResumptionToken_localState,
          handleGoAwayMessage_localState, hrt, String.append_empty]

/-- The completing inbound message: its fragment (if any) is accumulated
first, then the model turn is appended and the promise resolved with the
accumulated text. -/
theorem textOnMessage_complete_step (now : Nat) (msg : ServerMsg)
    (s : MgrState TextLocal) (acc : String)
    (hc : msg.generationComplete = true)
    (hr : s.localState.resolver = true)
    (hrt : s.localState.responseText = some acc) :
    (textOnMessage now msg s).2.2 =
      some (acc ++ (fragOf msg.modelTurnParts).getD "") ∧
    (textOnMessage now msg s).1.localState.messages =
      s.localState.messages ++
        [{ role := "model",
           parts := [acc ++ (fragOf msg.modelTurnParts).getD ""] }] := by
  rcases hf : fragOf msg.modelTurnParts with - | t <;>
  · rcases hga : msg.goAwayTimeLeft with - | tl <;>
    · rcases hrh : tokenPresent msg.resumptionHandle with - | - <;>
        simp [textOnMessage, hc, hf, hga, hrh, setResumptionToken_localState,
          handleGoAwayMessage_localState, hrt, hr, String.append_empty]

/-- Streamed fragments followed by a completion message: the promise
resolves with the accumulated concatenation and exactly one model turn is
appended. -/
theorem runMsgs_flow (now : Nat) (pre : List ServerMsg) :
    ∀ (s : MgrState TextLocal) (acc : String) (mlast : ServerMsg),
    (∀ m ∈ pre, m.generationComplete = false) →
    mlast.generationComplete = true →
    s.localState.resolver = true →
    s.localState.responseText = some acc →
    (runMsgs now (pre ++ [mlast]) s).2.2 =
      some (acc ++ joinFrags (pre ++ [mlast])) ∧
    (runMsgs now (pre ++ [mlast]) s).1.localState.messages =
      s.localState.messages ++
        [{ role := "model",
           parts := [acc ++ joinFrags (pre ++ [mlast])] }] := by
  induction pre with
  | nil =>
    intro s acc mlast hpre hc hr hrt
    have h := textOnMessage_complete_step now mlast s acc hc hr hrt
    refine ⟨?_, ?_⟩
    · simp only [List.nil_append, runMsgs, h.1]
      simp [joinFrags, String.append_empty]
    · simp only [List.nil_append, runMsgs, h.2]
      simp [joinFrags, String.append_empty]
  | cons m ms ih =>
    intro s acc mlast hpre hc hr hrt
    have hm : m.generationComplete = false := hpre m (by simp)
    have hstep := textOnMessage_step now m s acc hm hrt
    have ihh := ih (textOnMessage now m s).1
      (acc ++ (fragOf m.modelTurnParts).getD "") mlast
      (fun x hx => hpre x (by simp [hx]))
      hc (by rw [hstep.2.1]; exact hr) hstep.2.2.2.1
    refine ⟨?_, ?_⟩
    · simp only [List.cons_append, runMsgs, hstep.1, List.append_eq]
      rw [ihh.1]
      simp [joinFrags, String.append_assoc]
    · simp only [List.cons_append, runMsgs, List.append_eq]
      rw [ihh.2, hstep.2.2.1]
      simp [joinFrags, String.append_assoc]

/-- C8: `sendMessage(text)` on a fresh text adapter lazily opens a session,
appends exactly one user turn before sending, and once the conduit streams
fragments and signals generation-complete, the promise resolves with the
concatenation of the streamed fragments and exactly one model turn
(carrying that same text) is appended to the history. -/
theorem sendMessage_fresh_flow (now now2 : Nat) (mdl text : String)
    (s0 : MgrState TextLocal) (pre : List ServerMsg) (mlast : ServerMsg)
    (hfresh : s0.localState =
      { hasSession := false, messages := [], resolver := false,
        responseText := none })
    (hstore : s0.store = none)
    (hpre : ∀ m ∈ pre, m.generationComplete = false)
    (hlast : mlast.generationComplete = true) :
    (sendMessage now true true (some mdl) text s0).2.2 = true ∧
    (sendMessage now true true (some mdl) text s0).1.localState.hasSession =
      true ∧
    (sendMessage now true true (some mdl) text s0).1.sessionState.isSome =
      true ∧
    (sendMessage now true true (some mdl) text s0).1.localState.messages =
      [{ role := "user", parts := [text] }] ∧
    (runMsgs now2 (pre ++ [mlast])
        (sendMessage now true true (some mdl) text s0).1).2.2 =
      some (joinFrags (pre ++ [mlast])) ∧
    (runMsgs now2 (pre ++ [mlast])
        (sendMessage now true true (some mdl) text s0).1).1.localState.messages
      = [{ role := "user", parts := [text] },
         { role := "model", parts := [joinFrags (pre ++ [mlast])] }] := by
  have hsm : sendMessage now true true (some mdl) text s0 =
      ({ sessionState := some
           { sessionId := "text-session-" ++ toString now,
             resumptionToken := none, currentModel := mdl, isActive := true,
             connectionAttempts := 0 }
         reconnectTimer := s0.reconnectTimer
         store := none
         localState :=
           { hasSession := true,
             messages := [{ role := "user", parts := [text] }],
             resolver := true, responseText := some "" } },
       [SessionEvent.sessionStarted ("text-session-" ++ toString now)],
       true) := by
    simp [sendMessage, sendMessageBody, startSession, getValidResumptionToken,
      startChoice, createNewSession, tokenPresent, textOps, hstore, hfresh]
  have hflow := runMsgs_flow now2 pre
    (sendMessage now true true (some mdl) text s0).1 "" mlast hpre hlast
    (by rw [hsm]) (by rw [hsm])
  refine ⟨by simp [hsm], by simp [hsm], by simp [hsm], by simp [hsm], ?_, ?_⟩
  · rw [hflow.1, String.empty_append]
  · rw [hflow.2]
    simp [hsm, String.empty_append]

/-- A fresh text adapter state for the C8 witness. -/
def freshTextState : MgrState TextLocal :=
  { sessionState := none, reconnectTimer := none, store := none
    localState := { hasSession := false, messages := [], resolver := false,
                    responseText := none } }

/-- A streamed fragment message carrying `"Hel"`, for the C8 witness. -/
def fragMsgA : ServerMsg :=
  { resumptionHandle := none, goAwayTimeLeft := none, errorMsg := none,
    modelTurnParts := some ["Hel"], generationComplete := false }

/-- The completing message carrying the fragment `"lo"`, for the C8
witness. -/
def doneMsgB : ServerMsg :=
  { resumptionHandle := none, goAwayTimeLeft := none, errorMsg := none,
    modelTurnParts := some ["lo"], generationComplete := true }

/-- C8 witness for `sendMessage_fresh_flow`. -/
theorem sendMessage_fresh_flow_witness :
    (sendMessage 1 true true (some "model-a") "hi" freshTextState).2.2 =
      true ∧
    (sendMessage 1 true true (some "model-a") "hi"
        freshTextState).1.localState.messages =
      [{ role := "user", parts := ["hi"] }] ∧
    (runMsgs 2 ([fragMsgA] ++ [doneMsgB])
        (sendMessage 1 true true (some "model-a") "hi"
          freshTextState).1).2.2 =
      some (joinFrags ([fragMsgA] ++ [doneMsgB])) ∧
    (runMsgs 2 ([fragMsgA] ++ [doneMsgB])
        (sendMessage 1 true true (some "model-a") "hi"
          freshTextState).1).1.localState.messages =
      [{ role := "user", parts := ["hi"] },
       { role := "model", parts := [joinFrags ([fragMsgA] ++ [doneMsgB])] }] :=
  have h := sendMessage_fresh_flow 1 2 "model-a" "hi" freshTextState
    [fragMsgA] doneMsgB rfl rfl (by decide) rfl
  ⟨h.1, h.2.2.2.1, h.2.2.2.2.1, h.2.2.2.2.2⟩

/-- C1 witness for `networkError_third_error_ends_session`. -/
theorem networkError_third_error_ends_session_witness :
    (handleNetworkError callOps 500 envAllFail 0 netErrCexState).2 =
      [SessionEvent.networkError true, SessionEvent.reconnecting 1,
       SessionEvent.networkError true, SessionEvent.reconnecting 2,
       SessionEvent.networkError false,
       SessionEvent.sessionEnded "sts-session-100"] ∧
    (handleNetworkError callOps 500 envAllFail 0 netErrCexState).1.sessionState
      = none :=
  have h := networkError_third_error_ends_session callOps 500 envAllFail 0
    netErrCexState
    { sessionId := "sts-session-100", resumptionToken := some "tok",
      currentModel := "m0", isActive := true, connectionAttempts := 0 }
    "tok" rfl rfl rfl (by decide) rfl rfl
  ⟨h.1, h.2.1⟩

end Anima
